import Mathlib

/-!
Verification of the pooled query-dispatch and result-materialization engine of
the IoTDB MCP server (`src/iotdb_mcp_server/server.py`).

The Python code is shallowly embedded as follows:
* Python string operations (`strip`, `upper`, `lower`, `startswith`, `endswith`,
  `join`, slicing) are modelled as functions over `String` working on the
  underlying character list, with the exact semantics Python gives them on
  ASCII input (the only input the classifier and filename logic care about).
* A result set (`SessionDataSet`) is an ordered list of column names plus a
  list of records; each record carries the timestamp returned by
  `get_timestamp()` and the already-stringified field values returned by
  `get_fields()` (Python renders each field with `str(...)`; a field value is
  either an integer, rendered in decimal, or an arbitrary string standing for
  the `str` form of any other scalar).
* Each tool invocation is a function from an environment (describing how the
  external database/pandas calls behave: success, remote failure, mid-drain
  failure, write failure, plus the fresh uuid hex and the current unix time)
  to a trace of session events (`acquire`, `execute`, `close`, `write`) and a
  result (payload or raised error), mirroring the try/except control flow of
  the source line by line.
-/

/-! ## Python string primitives -/

/-- Characters removed by Python `str.strip()` with no arguments. -/
def pyIsSpace (c : Char) : Bool :=
  c = ' ' || c = '\t' || c = '\n' || c = '\r' || c = '\x0b' || c = '\x0c'

/-- ASCII uppercasing of one character, as Python `str.upper()` does on ASCII. -/
def pyUpperChar (c : Char) : Char :=
  if 'a' ≤ c ∧ c ≤ 'z' then Char.ofNat (c.toNat - 32) else c

/-- ASCII lowercasing of one character, as Python `str.lower()` does on ASCII. -/
def pyLowerChar (c : Char) : Char :=
  if 'A' ≤ c ∧ c ≤ 'Z' then Char.ofNat (c.toNat + 32) else c

/-- Python `s.upper()` (ASCII fragment). -/
def pyUpper (s : String) : String := ⟨s.data.map pyUpperChar⟩

/-- Python `s.lower()` (ASCII fragment). -/
def pyLower (s : String) : String := ⟨s.data.map pyLowerChar⟩

/-- Python `s.strip()`: drop leading and trailing whitespace. -/
def pyStrip (s : String) : String :=
  ⟨((s.data.dropWhile pyIsSpace).reverse.dropWhile pyIsSpace).reverse⟩

/-- Python `s.startswith(pre)`. -/
def pyStartsWith (s pre : String) : Bool := pre.data.isPrefixOf s.data

/-- Python `s.endswith(suf)`. -/
def pyEndsWith (s suf : String) : Bool := suf.data.isSuffixOf s.data

/-- Python `sep.join(parts)`. -/
def pyJoin (sep : String) : List String → String
  | [] => ""
  | [s] => s
  | s :: rest => s ++ sep ++ pyJoin sep rest

/-- Python `s[:n]` for `n ≥ 0`. -/
def pyTake (s : String) (n : Nat) : String := ⟨s.data.take n⟩

/-- Python `s[:-n]` for `n ≥ 1` and `n ≤ len(s)` (the only way the source uses
    negative slicing: it first checks that `s` ends with an `n`-character
    extension). -/
def pySliceToNeg (s : String) (n : Nat) : String := ⟨s.data.take (s.data.length - n)⟩

/-- Number of occurrences of `pat` as a substring of `s` (counting start
    positions). Used to state "contains the extension exactly once". -/
def substrCount (pat s : String) : Nat :=
  ((List.range (s.data.length + 1)).filter (fun i => pat.data.isPrefixOf (s.data.drop i))).length

/-- Lowercase hexadecimal digit — the alphabet of Python's `uuid.uuid4().hex`. -/
def isHexLower (c : Char) : Bool := ('0' ≤ c && c ≤ '9') || ('a' ≤ c && c ≤ 'f')

/-- The strings of the shape `dump_` + `hexLen` lowercase hex characters +
    `_` + a nonempty run of decimal digits + `ext` (the regular expression
    `dump_[0-9a-f]{hexLen}_[0-9]+` followed by the literal extension). -/
def DumpName (hexLen : Nat) (ext s : String) : Prop :=
  ∃ h d : String, s = "dump_" ++ h ++ "_" ++ d ++ ext
    ∧ h.data.length = hexLen
    ∧ (∀ c ∈ h.data, isHexLower c = true)
    ∧ d.data ≠ []
    ∧ (∀ c ∈ d.data, c.isDigit = true)

/-! ## Data model: result sets and data frames -/

/-- One scalar value as the Python code sees it after `str(...)`-rendering
    decisions: integers keep their numeric identity (the tree-dialect timestamp
    is one), everything else is carried as its Python `str` form. -/
inductive Value where
  | int : Int → Value
  | str : String → Value
deriving DecidableEq

/-- Python `str(v)` for a field value. -/
def Value.toStr : Value → String
  | .int i => Int.repr i
  | .str s => s

/-- One record of a `SessionDataSet`: `get_timestamp()` and `get_fields()`. -/
structure RowRecord where
  timestamp : Int
  fields : List Value
deriving DecidableEq

/-- A `SessionDataSet`: `get_column_names()` plus the records the cursor
    yields, in cursor order. -/
structure ResultSet where
  columns : List String
  records : List RowRecord
deriving DecidableEq

/-- A pandas `DataFrame` as used by the export tools: column names plus
    positional rows. -/
structure DataFrame where
  columns : List String
  rows : List (List Value)
deriving DecidableEq

/-- `SessionDataSet.todf()` (iotdb client library): the full drained table.
    For a tree-dialect result whose first column is `Time`, the timestamp
    becomes the leading value of each row; otherwise the rows are the fields
    as-is. -/
def ResultSet.todf (rs : ResultSet) : DataFrame :=
  { columns := rs.columns,
    rows := if rs.columns.head? = some "Time"
            then rs.records.map (fun r => Value.int r.timestamp :: r.fields)
            else rs.records.map (fun r => r.fields) }

/-! ## Session events, errors and run traces -/

/-- Observable actions on the session acquired by one tool invocation, in
    program order: pool checkout, `execute_query_statement(sql)`, `close()`,
    and a file write of the exported table. -/
inductive Event where
  | acquire : Event
  | execute : String → Event
  | close : Event
  | write : String → DataFrame → Event
deriving DecidableEq

/-- Errors a tool invocation can raise (the Python code raises `ValueError`s
    and re-raises whatever the client library raised; the constructors just
    name the distinct raise sites). -/
inductive ToolError where
  | unsupported : ToolError
  | remote : ToolError
  | drain : ToolError
  | badFormat : ToolError
  | writeFailed : ToolError
deriving DecidableEq

instance exceptDecEq (ε α : Type) [DecidableEq ε] [DecidableEq α] : DecidableEq (Except ε α) := by
  intro x y
  cases x with
  | ok a =>
    cases y with
    | ok b =>
      exact if h : a = b then .isTrue (by rw [h]) else .isFalse (by intro hc; cases hc; exact h rfl)
    | error f => exact .isFalse (by intro hc; cases hc)
  | error e =>
    cases y with
    | ok b => exact .isFalse (by intro hc; cases hc)
    | error f =>
      exact if h : e = f then .isTrue (by rw [h]) else .isFalse (by intro hc; cases hc; exact h rfl)

/-- Trace and outcome of one text-returning tool invocation. -/
structure ToolRun where
  events : List Event
  result : Except ToolError String
deriving DecidableEq

/-- Payload of a successful export: the resolved filepath and the preview the
    caller receives (the returned text is `ExportOutput.text`). -/
structure ExportOutput where
  filepath : String
  preview_rows : Nat
  preview_data : List String
deriving DecidableEq

/-- The text the export tools actually return on success (source lines
    268-273 / 447-452). -/
def ExportOutput.text (o : ExportOutput) : String :=
  "Query results exported to " ++ o.filepath ++ "\n\nPreview (first "
    ++ Nat.repr o.preview_rows ++ " rows):\n" ++ pyJoin "\n" o.preview_data

/-- Trace and outcome of one export tool invocation. -/
structure ExportRun where
  events : List Event
  result : Except ToolError ExportOutput
deriving DecidableEq

def Event.isClose : Event → Bool
  | .close => true
  | _ => false

def Event.isWrite : Event → Bool
  | .write _ _ => true
  | _ => false

/-- How many times `close()` was invoked on the acquired session. -/
def closeCount (evs : List Event) : Nat := (evs.filter Event.isClose).length

/-- How many file writes the invocation performed. -/
def writeCount (evs : List Event) : Nat := (evs.filter Event.isWrite).length

/-- The query strings passed to `execute_query_statement`, in order. -/
def executedQueries (evs : List Event) : List String :=
  evs.filterMap fun e => match e with
    | .execute s => some s
    | _ => none

/-! ## Environments: behavior of the external database and filesystem -/

/-- Environment for the text tools: whether `execute_query_statement` returns
    a result set or raises, and whether the drain loop (`has_next`/`next`)
    raises before completing. -/
structure QueryEnv where
  execResult : Option ResultSet
  drainFail : Bool
deriving DecidableEq

/-- Environment for the export tools: additionally whether `res.todf()` or the
    file write raises, the fresh `uuid.uuid4().hex` value, and
    `int(datetime.datetime.now().timestamp())`. -/
structure ExportEnv where
  execResult : Option ResultSet
  todfFail : Bool
  writeFail : Bool
  uuidHex : String
  now : Nat
deriving DecidableEq

/-! ## Statement classification (the `if` conditions of the source) -/

/-- The condition of `metadata_query`, source lines 119-128, applied to
    `query_sql.strip().upper()`. -/
def metadataAllowedB (stmt : String) : Bool :=
  pyStartsWith stmt "SHOW DATABASES"
  || pyStartsWith stmt "SHOW TIMESERIES"
  || pyStartsWith stmt "SHOW CHILD PATHS"
  || pyStartsWith stmt "SHOW CHILD NODES"
  || pyStartsWith stmt "SHOW DEVICES"
  || pyStartsWith stmt "COUNT TIMESERIES"
  || pyStartsWith stmt "COUNT NODES"
  || pyStartsWith stmt "COUNT DEVICES"

/-- The condition of `select_query`, source line 190. -/
def selectAllowedB (stmt : String) : Bool := pyStartsWith stmt "SELECT"

/-- The condition of `export_query`, source line 230. -/
def exportTreeAllowedB (stmt : String) : Bool :=
  pyStartsWith stmt "SELECT" || pyStartsWith stmt "SHOW"

/-- The condition of `read_query`, source lines 329-333. -/
def readAllowedB (stmt : String) : Bool :=
  pyStartsWith stmt "SELECT" || pyStartsWith stmt "DESCRIBE" || pyStartsWith stmt "SHOW"

/-- The condition of `export_table_query`, source line 409. -/
def exportTableAllowedB (stmt : String) : Bool :=
  pyStartsWith stmt "SELECT" || pyStartsWith stmt "SHOW"
  || pyStartsWith stmt "DESCRIBE" || pyStartsWith stmt "DESC"

/-! ## Result materialization (`prepare_res`, both dialect variants) -/

/-- One rendered row line of the tree-dialect `prepare_res` (source lines
    287-296): when the first column is named exactly `"Time"`, the line is
    `str(timestamp) + "," + ",".join(map(str, fields))`, otherwise just the
    joined fields. -/
def renderRecord (columns : List String) (record : RowRecord) : String :=
  if columns.head? = some "Time" then
    Int.repr record.timestamp ++ "," ++ pyJoin "," (record.fields.map Value.toStr)
  else
    pyJoin "," (record.fields.map Value.toStr)

/-- One rendered row line of the table-dialect `prepare_res` (source lines
    466-468): no timestamp special case. -/
def renderRecordTable (record : RowRecord) : String :=
  pyJoin "," (record.fields.map Value.toStr)

/-- Tree-dialect `prepare_res` (source lines 282-303). Returns the session
    events it performs and the produced text. A raise inside the drain loop
    (`env.drainFail`, covering `has_next`/`next` failures; also the
    `IndexError` Python raises on `columns[0]` when the column list is empty
    but a record exists) leaves the session open — the final `close()` on
    line 297 is only reached after a complete drain. -/
def prepare_res (env : QueryEnv) (rs : ResultSet) : List Event × Except ToolError String :=
  if env.drainFail then ([], .error .drain)
  else if rs.columns.isEmpty && !rs.records.isEmpty then ([], .error .drain)
  else
    ([.close],
     .ok (pyJoin "\n" (pyJoin "," rs.columns :: rs.records.map (renderRecord rs.columns))))

/-- Table-dialect `prepare_res` (source lines 461-475). -/
def prepare_res_table (env : QueryEnv) (rs : ResultSet) : List Event × Except ToolError String :=
  if env.drainFail then ([], .error .drain)
  else
    ([.close],
     .ok (pyJoin "\n" (pyJoin "," rs.columns :: rs.records.map renderRecordTable)))

/-! ## Tree-dialect tools -/

/-- `metadata_query` (source lines 86-138): acquire a session, classify the
    trimmed upper-cased statement, and either execute + drain or close the
    session and raise; the `except` block closes the (possibly already
    closed) session again on every raised exception. -/
def metadata_query (env : QueryEnv) (query_sql : String) : ToolRun :=
  let stmt := pyUpper (pyStrip query_sql)
  if metadataAllowedB stmt then
    match env.execResult with
    | none => ⟨[.acquire, .execute query_sql, .close], .error .remote⟩
    | some res =>
      match prepare_res env res with
      | (ev, .ok text) => ⟨[.acquire, .execute query_sql] ++ ev, .ok text⟩
      | (ev, .error e) => ⟨[.acquire, .execute query_sql] ++ ev ++ [.close], .error e⟩
  else
    ⟨[.acquire, .close, .close], .error .unsupported⟩

/-- `select_query` (source lines 140-200): same pipeline with the `SELECT`
    allowlist. -/
def select_query (env : QueryEnv) (query_sql : String) : ToolRun :=
  let stmt := pyUpper (pyStrip query_sql)
  if selectAllowedB stmt then
    match env.execResult with
    | none => ⟨[.acquire, .execute query_sql, .close], .error .remote⟩
    | some res =>
      match prepare_res env res with
      | (ev, .ok text) => ⟨[.acquire, .execute query_sql] ++ ev, .ok text⟩
      | (ev, .error e) => ⟨[.acquire, .execute query_sql] ++ ev ++ [.close], .error e⟩
  else
    ⟨[.acquire, .close, .close], .error .unsupported⟩

/-- The base filename after the `filename is None` check (source lines
    241-243 / 421-422): the caller's name, or the generated
    `dump_{uuid.uuid4().hex[:4]}_{int(datetime.datetime.now().timestamp())}`. -/
def exportBaseName (env : ExportEnv) (filename? : Option String) : String :=
  filename?.getD ("dump_" ++ pyTake env.uuidHex 4 ++ "_" ++ Nat.repr env.now)

/-- Final-component resolution for the csv branch (source lines 246-249 /
    425-428): strip one (case-insensitively matched) trailing `.csv` from the
    supplied name, then append the canonical extension. -/
def resolvedCsvName (filename : String) : String :=
  (if pyEndsWith (pyLower filename) ".csv" then pySliceToNeg filename 4 else filename) ++ ".csv"

/-- The csv filepath: `f"{config.export_path}/{filename}.csv"`. -/
def resolvedCsvPath (export_path filename : String) : String :=
  export_path ++ "/" ++ resolvedCsvName filename

/-- Final-component resolution for the excel branch (source lines 251-254 /
    430-433). -/
def resolvedXlsxName (filename : String) : String :=
  (if pyEndsWith (pyLower filename) ".xlsx" then pySliceToNeg filename 5 else filename) ++ ".xlsx"

/-- The xlsx filepath: `f"{config.export_path}/{filename}.xlsx"`. -/
def resolvedXlsxPath (export_path filename : String) : String :=
  export_path ++ "/" ++ resolvedXlsxName filename

/-- Modelled from the spec: pandas `DataFrame.to_csv(path, index=False)` /
    `to_excel(path, index=False)` — "Writes the full table (not just the
    preview) ... with a header row, no index column". The written artifact is
    modelled as its list of records: the header plus one record per row. -/
def writtenLines (df : DataFrame) : List String :=
  pyJoin "," df.columns :: df.rows.map (fun row => pyJoin "," (row.map Value.toStr))

/-- The preview block built at source lines 259-265 / 438-444: the comma-joined
    header followed by the first `min(10, len(df))` rows. -/
def previewData (df : DataFrame) : List String :=
  pyJoin "," df.columns
    :: (df.rows.take (min 10 df.rows.length)).map (fun row => pyJoin "," (row.map Value.toStr))

/-- The part of `export_query` / `export_table_query` after classification
    succeeded (source lines 231-273 and 410-452 — the two bodies are
    token-for-token identical): execute, drain via `todf()`, close the
    session, resolve the filename (generating `dump_{uuid.uuid4().hex[:4]}_
    {timestamp}` when none is supplied), dispatch on the lower-cased format,
    write the file and build the preview. Any exception raised after the
    explicit `close()` makes the `except` block close the session a second
    time. -/
def export_core (export_path : String) (env : ExportEnv) (query_sql format : String)
    (filename? : Option String) : ExportRun :=
  match env.execResult with
  | none => ⟨[.acquire, .execute query_sql, .close], .error .remote⟩
  | some res =>
    if env.todfFail then ⟨[.acquire, .execute query_sql, .close], .error .drain⟩
    else
      let df := res.todf
      let filename := exportBaseName env filename?
      if pyLower format = "csv" then
        let filepath := resolvedCsvPath export_path filename
        if env.writeFail then
          ⟨[.acquire, .execute query_sql, .close, .close], .error .writeFailed⟩
        else
          ⟨[.acquire, .execute query_sql, .close, .write filepath df],
           .ok ⟨filepath, min 10 df.rows.length, previewData df⟩⟩
      else if pyLower format = "excel" then
        let filepath := resolvedXlsxPath export_path filename
        if env.writeFail then
          ⟨[.acquire, .execute query_sql, .close, .close], .error .writeFailed⟩
        else
          ⟨[.acquire, .execute query_sql, .close, .write filepath df],
           .ok ⟨filepath, min 10 df.rows.length, previewData df⟩⟩
      else
        ⟨[.acquire, .execute query_sql, .close, .close], .error .badFormat⟩

/-- `export_query` (source lines 202-280): accepts `SELECT`- or
    `SHOW`-prefixed statements; on rejection the session is closed only by the
    `except` block. -/
def export_query (export_path : String) (env : ExportEnv) (query_sql format : String)
    (filename? : Option String) : ExportRun :=
  let stmt := pyUpper (pyStrip query_sql)
  if exportTreeAllowedB stmt then export_core export_path env query_sql format filename?
  else ⟨[.acquire, .close], .error .unsupported⟩

/-! ## Table-dialect tools -/

/-- `read_query` (source lines 316-343): `SELECT`/`DESCRIBE`/`SHOW` allowlist,
    table-dialect drain. -/
def read_query (env : QueryEnv) (query_sql : String) : ToolRun :=
  let stmt := pyUpper (pyStrip query_sql)
  if readAllowedB stmt then
    match env.execResult with
    | none => ⟨[.acquire, .execute query_sql, .close], .error .remote⟩
    | some res =>
      match prepare_res_table env res with
      | (ev, .ok text) => ⟨[.acquire, .execute query_sql] ++ ev, .ok text⟩
      | (ev, .error e) => ⟨[.acquire, .execute query_sql] ++ ev ++ [.close], .error e⟩
  else
    ⟨[.acquire, .close, .close], .error .unsupported⟩

/-- `list_tables` (source lines 345-362): fixed `SHOW TABLES` statement, no
    classification; drains the first field of every record. A record with no
    fields would raise `IndexError` inside the loop in Python; like any other
    mid-drain raise it is covered by `env.drainFail`. -/
def list_tables (env : QueryEnv) (database : String) : ToolRun :=
  match env.execResult with
  | none => ⟨[.acquire, .execute "SHOW TABLES", .close], .error .remote⟩
  | some res =>
    if env.drainFail then ⟨[.acquire, .execute "SHOW TABLES", .close], .error .drain⟩
    else
      ⟨[.acquire, .execute "SHOW TABLES", .close],
       .ok (pyJoin "\n" (("Tables_in_" ++ database)
            :: res.records.map (fun r => ((r.fields.headD (Value.str "")).toStr))))⟩

/-- `describe_table` (source lines 364-379): fixed statement template
    `"DESC " + table_name + " details"`, then the table-dialect drain. -/
def describe_table (env : QueryEnv) (table_name : String) : ToolRun :=
  let q := "DESC " ++ table_name ++ " details"
  match env.execResult with
  | none => ⟨[.acquire, .execute q, .close], .error .remote⟩
  | some res =>
    match prepare_res_table env res with
    | (ev, .ok text) => ⟨[.acquire, .execute q] ++ ev, .ok text⟩
    | (ev, .error e) => ⟨[.acquire, .execute q] ++ ev ++ [.close], .error e⟩

/-- `export_table_query` (source lines 381-459): table-dialect export with the
    `SELECT`/`SHOW`/`DESCRIBE`/`DESC` allowlist; the post-classification body
    is identical to `export_query`. -/
def export_table_query (export_path : String) (env : ExportEnv) (query_sql format : String)
    (filename? : Option String) : ExportRun :=
  let stmt := pyUpper (pyStrip query_sql)
  if exportTableAllowedB stmt then export_core export_path env query_sql format filename?
  else ⟨[.acquire, .close], .error .unsupported⟩

/-! ## Helper lemmas: decimal representations and joined strings -/

theorem toDigitsCore_digits (b : Nat) (hb : b = 10) :
    ∀ (fuel n : Nat) (acc : List Char), (∀ c ∈ acc, c.isDigit = true) →
      ∀ c ∈ Nat.toDigitsCore b fuel n acc, c.isDigit = true := by
  intro fuel
  induction fuel with
  | zero => intro n acc hacc; simpa [Nat.toDigitsCore] using hacc
  | succ f ih =>
    intro n acc hacc
    unfold Nat.toDigitsCore
    dsimp only
    have hd : (Nat.digitChar (n % b)).isDigit = true := by
      subst hb
      have h10 : n % 10 < 10 := Nat.mod_lt _ (by decide)
      have hall : ∀ m < 10, (Nat.digitChar m).isDigit = true := by decide
      exact hall _ h10
    split
    · intro c hc
      rcases List.mem_cons.mp hc with h | h
      · simpa [h] using hd
      · exact hacc _ h
    · exact ih _ _ (by
        intro c hc
        rcases List.mem_cons.mp hc with h | h
        · simpa [h] using hd
        · exact hacc _ h)

/-- Every character of the decimal form of a natural number is a digit. -/
theorem nat_repr_digits (n : Nat) : ∀ c ∈ (Nat.repr n).data, c.isDigit = true := by
  intro c hc
  have h : (Nat.repr n).data = Nat.toDigits 10 n := rfl
  rw [h] at hc
  exact toDigitsCore_digits 10 rfl _ _ _ (by simp) c hc

theorem toDigitsCore_len (b : Nat) : ∀ (fuel n : Nat) (acc : List Char),
    acc.length ≤ (Nat.toDigitsCore b fuel n acc).length := by
  intro fuel
  induction fuel with
  | zero => intro n acc; simp [Nat.toDigitsCore]
  | succ f ih =>
    intro n acc
    unfold Nat.toDigitsCore
    dsimp only
    split
    · simp
    · calc acc.length ≤ (Nat.digitChar (n % b) :: acc).length := by simp
        _ ≤ _ := ih _ _

/-- The decimal form of a natural number is never empty. -/
theorem nat_repr_ne_nil (n : Nat) : (Nat.repr n).data ≠ [] := by
  have h : (Nat.repr n).data = Nat.toDigits 10 n := rfl
  rw [h]
  unfold Nat.toDigits Nat.toDigitsCore
  dsimp only
  split
  · simp
  · intro he
    have hl := toDigitsCore_len 10 n (n / 10) [Nat.digitChar (n % 10)]
    rw [he] at hl
    simp at hl

/-- Every character of `str(i)` for an integer is a digit or the minus sign. -/
theorem int_repr_chars (i : Int) : ∀ c ∈ (Int.repr i).data, c.isDigit = true ∨ c = '-' := by
  intro c hc
  cases i with
  | ofNat n =>
    have h : (Int.repr (Int.ofNat n)).data = (Nat.repr n).data := rfl
    rw [h] at hc
    exact Or.inl (nat_repr_digits n c hc)
  | negSucc n =>
    have h : (Int.repr (Int.negSucc n)).data = '-' :: (Nat.repr (n + 1)).data := by
      show (("-" ++ Nat.repr (n + 1)).data) = _
      rw [String.data_append]
      rfl
    rw [h] at hc
    rcases List.mem_cons.mp hc with h1 | h1
    · exact Or.inr h1
    · exact Or.inl (nat_repr_digits _ c h1)

/-- `str(i)` contains no character that is neither a digit nor `'-'`. -/
theorem int_repr_count_zero (i : Int) (c : Char) (hd : c.isDigit = false) (hm : c ≠ '-') :
    (Int.repr i).data.count c = 0 := by
  rw [List.count_eq_zero]
  intro hmem
  rcases int_repr_chars i c hmem with h | h
  · rw [hd] at h; cases h
  · exact hm h

/-- Character occurrences in a Python `sep.join`: the separators contribute
    `parts.length - 1` copies of `sep`. -/
theorem count_pyJoin (c : Char) (sep : String) :
    ∀ parts : List String, parts ≠ [] →
      (pyJoin sep parts).data.count c
        = ((parts.map fun p => p.data.count c).sum) + (parts.length - 1) * (sep.data.count c) := by
  intro parts
  induction parts with
  | nil => intro h; exact absurd rfl h
  | cons x xs ih =>
    intro _
    cases xs with
    | nil => simp [pyJoin]
    | cons y ys =>
      have ihy := ih (by simp)
      show ((x ++ sep ++ pyJoin sep (y :: ys)).data.count c) = _
      rw [String.data_append, String.data_append, List.count_append, List.count_append, ihy]
      simp only [List.map_cons, List.sum_cons, List.length_cons, Nat.add_sub_cancel]
      ring

/-! ## Close-count computations per tool -/

theorem closeCount_metadata_query (env : QueryEnv) (q : String) :
    closeCount (metadata_query env q).events
      = if metadataAllowedB (pyUpper (pyStrip q)) then 1 else 2 := by
  cases hB : metadataAllowedB (pyUpper (pyStrip q)) with
  | false => simp [metadata_query, hB, closeCount, Event.isClose]
  | true =>
    cases hE : env.execResult with
    | none => simp [metadata_query, hB, hE, closeCount, Event.isClose]
    | some rs =>
      cases hD : env.drainFail with
      | true => simp [metadata_query, hB, hE, prepare_res, hD, closeCount, Event.isClose]
      | false =>
        by_cases hC : rs.columns.isEmpty && !rs.records.isEmpty <;>
          simp [metadata_query, hB, hE, prepare_res, hD, hC, closeCount, Event.isClose]

theorem closeCount_select_query (env : QueryEnv) (q : String) :
    closeCount (select_query env q).events
      = if selectAllowedB (pyUpper (pyStrip q)) then 1 else 2 := by
  cases hB : selectAllowedB (pyUpper (pyStrip q)) with
  | false => simp [select_query, hB, closeCount, Event.isClose]
  | true =>
    cases hE : env.execResult with
    | none => simp [select_query, hB, hE, closeCount, Event.isClose]
    | some rs =>
      cases hD : env.drainFail with
      | true => simp [select_query, hB, hE, prepare_res, hD, closeCount, Event.isClose]
      | false =>
        by_cases hC : rs.columns.isEmpty && !rs.records.isEmpty <;>
          simp [select_query, hB, hE, prepare_res, hD, hC, closeCount, Event.isClose]

theorem closeCount_read_query (env : QueryEnv) (q : String) :
    closeCount (read_query env q).events
      = if readAllowedB (pyUpper (pyStrip q)) then 1 else 2 := by
  cases hB : readAllowedB (pyUpper (pyStrip q)) with
  | false => simp [read_query, hB, closeCount, Event.isClose]
  | true =>
    cases hE : env.execResult with
    | none => simp [read_query, hB, hE, closeCount, Event.isClose]
    | some rs =>
      cases hD : env.drainFail with
      | true => simp [read_query, hB, hE, prepare_res_table, hD, closeCount, Event.isClose]
      | false => simp [read_query, hB, hE, prepare_res_table, hD, closeCount, Event.isClose]

theorem closeCount_list_tables (env : QueryEnv) (db : String) :
    closeCount (list_tables env db).events = 1 := by
  cases hE : env.execResult with
  | none => simp [list_tables, hE, closeCount, Event.isClose]
  | some rs =>
    cases hD : env.drainFail with
    | true => simp [list_tables, hE, hD, closeCount, Event.isClose]
    | false => simp [list_tables, hE, hD, closeCount, Event.isClose]

theorem closeCount_describe_table (env : QueryEnv) (tn : String) :
    closeCount (describe_table env tn).events = 1 := by
  cases hE : env.execResult with
  | none => simp [describe_table, hE, closeCount, Event.isClose]
  | some rs =>
    cases hD : env.drainFail with
    | true => simp [describe_table, hE, prepare_res_table, hD, closeCount, Event.isClose]
    | false => simp [describe_table, hE, prepare_res_table, hD, closeCount, Event.isClose]

theorem closeCount_export_core (ep : String) (env : ExportEnv) (q fmt : String)
    (fn? : Option String) :
    closeCount (export_core ep env q fmt fn?).events
      = if env.execResult.isSome && !env.todfFail
           && (!(pyLower fmt == "csv" || pyLower fmt == "excel") || env.writeFail)
        then 2 else 1 := by
  cases hE : env.execResult with
  | none => simp [export_core, hE, closeCount, Event.isClose]
  | some rs =>
    cases hT : env.todfFail with
    | true => simp [export_core, hE, hT, closeCount, Event.isClose]
    | false =>
      by_cases hC : pyLower fmt = "csv"
      · cases hW : env.writeFail with
        | true => simp [export_core, hE, hT, hC, hW, closeCount, Event.isClose]
        | false => simp [export_core, hE, hT, hC, hW, closeCount, Event.isClose]
      · by_cases hX : pyLower fmt = "excel"
        · cases hW : env.writeFail with
          | true => simp [export_core, hE, hT, hC, hX, hW, closeCount, Event.isClose]
          | false => simp [export_core, hE, hT, hC, hX, hW, closeCount, Event.isClose]
        · simp [export_core, hE, hT, hC, hX, closeCount, Event.isClose]

theorem closeCount_export_query (ep : String) (env : ExportEnv) (q fmt : String)
    (fn? : Option String) :
    closeCount (export_query ep env q fmt fn?).events
      = if exportTreeAllowedB (pyUpper (pyStrip q))
           && env.execResult.isSome && !env.todfFail
           && (!(pyLower fmt == "csv" || pyLower fmt == "excel") || env.writeFail)
        then 2 else 1 := by
  cases hB : exportTreeAllowedB (pyUpper (pyStrip q)) with
  | false => simp [export_query, hB, closeCount, Event.isClose]
  | true =>
    simp only [export_query, hB, if_true, Bool.true_and]
    rw [closeCount_export_core]

theorem closeCount_export_table_query (ep : String) (env : ExportEnv) (q fmt : String)
    (fn? : Option String) :
    closeCount (export_table_query ep env q fmt fn?).events
      = if exportTableAllowedB (pyUpper (pyStrip q))
           && env.execResult.isSome && !env.todfFail
           && (!(pyLower fmt == "csv" || pyLower fmt == "excel") || env.writeFail)
        then 2 else 1 := by
  cases hB : exportTableAllowedB (pyUpper (pyStrip q)) with
  | false => simp [export_table_query, hB, closeCount, Event.isClose]
  | true =>
    simp only [export_table_query, hB, if_true, Bool.true_and]
    rw [closeCount_export_core]

/-- C1 (amended): on every tool invocation that acquires a session, `close()`
    is invoked at least once and at most twice, never zero times; it is invoked
    exactly once on every path of `list_tables` and `describe_table` and on the
    success, remote-error and mid-drain-failure paths of the other tools, but
    twice on the classification-rejection paths of `metadata_query`,
    `select_query` and `read_query` (the tool closes the session and then the
    `except` block closes it again) and twice on the format-error and
    file-write-error paths of `export_query` and `export_table_query` (the
    session was already closed after draining when the error is raised). -/
theorem C1_close_invocations (envQ : QueryEnv) (envE : ExportEnv)
    (q fmt db tn ep : String) (fn? : Option String) :
    closeCount (metadata_query envQ q).events
        = (if metadataAllowedB (pyUpper (pyStrip q)) then 1 else 2)
  ∧ closeCount (select_query envQ q).events
        = (if selectAllowedB (pyUpper (pyStrip q)) then 1 else 2)
  ∧ closeCount (read_query envQ q).events
        = (if readAllowedB (pyUpper (pyStrip q)) then 1 else 2)
  ∧ closeCount (list_tables envQ db).events = 1
  ∧ closeCount (describe_table envQ tn).events = 1
  ∧ closeCount (export_query ep envE q fmt fn?).events
        = (if exportTreeAllowedB (pyUpper (pyStrip q))
              && envE.execResult.isSome && !envE.todfFail
              && (!(pyLower fmt == "csv" || pyLower fmt == "excel") || envE.writeFail)
           then 2 else 1)
  ∧ closeCount (export_table_query ep envE q fmt fn?).events
        = (if exportTableAllowedB (pyUpper (pyStrip q))
              && envE.execResult.isSome && !envE.todfFail
              && (!(pyLower fmt == "csv" || pyLower fmt == "excel") || envE.writeFail)
           then 2 else 1) :=
  ⟨closeCount_metadata_query envQ q, closeCount_select_query envQ q,
   closeCount_read_query envQ q, closeCount_list_tables envQ db,
   closeCount_describe_table envQ tn, closeCount_export_query ep envE q fmt fn?,
   closeCount_export_table_query ep envE q fmt fn?⟩

/-- C1 counterexample: on the classification-rejection exit path of
    `metadata_query` (here: a `DROP DATABASE` statement, with a healthy
    database environment) the acquired session's `close()` is invoked twice —
    once at the rejection site and once more by the `except` block — so the
    claimed "exactly once on every exit path" is false. -/
theorem C1_counterexample :
    closeCount (metadata_query ⟨some ⟨["x"], []⟩, false⟩ "DROP DATABASE root.a").events = 2
      ∧ ¬ closeCount (metadata_query ⟨some ⟨["x"], []⟩, false⟩ "DROP DATABASE root.a").events = 1 := by
  constructor
  · decide
  · decide

/-! ## Executed-query computations per tool -/

theorem executedQueries_export_core (ep : String) (env : ExportEnv) (q fmt : String)
    (fn? : Option String) :
    executedQueries (export_core ep env q fmt fn?).events = [q] := by
  cases hE : env.execResult with
  | none => simp [export_core, hE, executedQueries]
  | some rs =>
    cases hT : env.todfFail with
    | true => simp [export_core, hE, hT, executedQueries]
    | false =>
      by_cases hC : pyLower fmt = "csv"
      · cases hW : env.writeFail with
        | true => simp [export_core, hE, hT, hC, hW, executedQueries]
        | false => simp [export_core, hE, hT, hC, hW, executedQueries]
      · by_cases hX : pyLower fmt = "excel"
        · cases hW : env.writeFail with
          | true => simp [export_core, hE, hT, hC, hX, hW, executedQueries]
          | false => simp [export_core, hE, hT, hC, hX, hW, executedQueries]
        · simp [export_core, hE, hT, hC, hX, executedQueries]

theorem executedQueries_metadata_query (env : QueryEnv) (q : String)
    (h : metadataAllowedB (pyUpper (pyStrip q)) = true) :
    executedQueries (metadata_query env q).events = [q] := by
  cases hE : env.execResult with
  | none => simp [metadata_query, h, hE, executedQueries]
  | some rs =>
    cases hD : env.drainFail with
    | true => simp [metadata_query, h, hE, prepare_res, hD, executedQueries]
    | false =>
      by_cases hC : rs.columns.isEmpty && !rs.records.isEmpty <;>
        simp [metadata_query, h, hE, prepare_res, hD, hC, executedQueries]

theorem executedQueries_select_query (env : QueryEnv) (q : String)
    (h : selectAllowedB (pyUpper (pyStrip q)) = true) :
    executedQueries (select_query env q).events = [q] := by
  cases hE : env.execResult with
  | none => simp [select_query, h, hE, executedQueries]
  | some rs =>
    cases hD : env.drainFail with
    | true => simp [select_query, h, hE, prepare_res, hD, executedQueries]
    | false =>
      by_cases hC : rs.columns.isEmpty && !rs.records.isEmpty <;>
        simp [select_query, h, hE, prepare_res, hD, hC, executedQueries]

theorem executedQueries_read_query (env : QueryEnv) (q : String)
    (h : readAllowedB (pyUpper (pyStrip q)) = true) :
    executedQueries (read_query env q).events = [q] := by
  cases hE : env.execResult with
  | none => simp [read_query, h, hE, executedQueries]
  | some rs =>
    cases hD : env.drainFail with
    | true => simp [read_query, h, hE, prepare_res_table, hD, executedQueries]
    | false => simp [read_query, h, hE, prepare_res_table, hD, executedQueries]

/-- C2: statement classification in each classifying tool is a pure function
    of the trimmed, upper-cased form of the query string; a query whose
    trimmed upper-cased form fails the tool's allowed test is answered with
    the unsupported-statement error, is never passed to the database, and
    leaves the session closed (not checked out); a query that passes the test
    is passed to the database exactly once and verbatim. -/
theorem C2_classification_boundary (env : QueryEnv) (envE : ExportEnv) (ep fmt : String)
    (fn? : Option String) (q q' : String) :
    (metadataAllowedB (pyUpper (pyStrip q)) = false →
        (metadata_query env q).result = .error .unsupported
      ∧ executedQueries (metadata_query env q).events = []
      ∧ 1 ≤ closeCount (metadata_query env q).events)
  ∧ (metadataAllowedB (pyUpper (pyStrip q)) = true →
        executedQueries (metadata_query env q).events = [q])
  ∧ (selectAllowedB (pyUpper (pyStrip q)) = false →
        (select_query env q).result = .error .unsupported
      ∧ executedQueries (select_query env q).events = []
      ∧ 1 ≤ closeCount (select_query env q).events)
  ∧ (selectAllowedB (pyUpper (pyStrip q)) = true →
        executedQueries (select_query env q).events = [q])
  ∧ (readAllowedB (pyUpper (pyStrip q)) = false →
        (read_query env q).result = .error .unsupported
      ∧ executedQueries (read_query env q).events = []
      ∧ 1 ≤ closeCount (read_query env q).events)
  ∧ (readAllowedB (pyUpper (pyStrip q)) = true →
        executedQueries (read_query env q).events = [q])
  ∧ (exportTreeAllowedB (pyUpper (pyStrip q)) = false →
        (export_query ep envE q fmt fn?).result = .error .unsupported
      ∧ executedQueries (export_query ep envE q fmt fn?).events = []
      ∧ 1 ≤ closeCount (export_query ep envE q fmt fn?).events)
  ∧ (exportTreeAllowedB (pyUpper (pyStrip q)) = true →
        executedQueries (export_query ep envE q fmt fn?).events = [q])
  ∧ (exportTableAllowedB (pyUpper (pyStrip q)) = false →
        (export_table_query ep envE q fmt fn?).result = .error .unsupported
      ∧ executedQueries (export_table_query ep envE q fmt fn?).events = []
      ∧ 1 ≤ closeCount (export_table_query ep envE q fmt fn?).events)
  ∧ (exportTableAllowedB (pyUpper (pyStrip q)) = true →
        executedQueries (export_table_query ep envE q fmt fn?).events = [q])
  ∧ (pyUpper (pyStrip q') = pyUpper (pyStrip q) →
        metadataAllowedB (pyUpper (pyStrip q')) = metadataAllowedB (pyUpper (pyStrip q))
      ∧ selectAllowedB (pyUpper (pyStrip q')) = selectAllowedB (pyUpper (pyStrip q))
      ∧ readAllowedB (pyUpper (pyStrip q')) = readAllowedB (pyUpper (pyStrip q))
      ∧ exportTreeAllowedB (pyUpper (pyStrip q')) = exportTreeAllowedB (pyUpper (pyStrip q))
      ∧ exportTableAllowedB (pyUpper (pyStrip q')) = exportTableAllowedB (pyUpper (pyStrip q))) := by
  refine ⟨?_, ?_, ?_, ?_, ?_, ?_, ?_, ?_, ?_, ?_, ?_⟩
  · intro h
    refine ⟨?_, ?_, ?_⟩ <;> simp [metadata_query, h, executedQueries, closeCount, Event.isClose]
  · exact executedQueries_metadata_query env q
  · intro h
    refine ⟨?_, ?_, ?_⟩ <;> simp [select_query, h, executedQueries, closeCount, Event.isClose]
  · exact executedQueries_select_query env q
  · intro h
    refine ⟨?_, ?_, ?_⟩ <;> simp [read_query, h, executedQueries, closeCount, Event.isClose]
  · exact executedQueries_read_query env q
  · intro h
    refine ⟨?_, ?_, ?_⟩ <;> simp [export_query, h, executedQueries, closeCount, Event.isClose]
  · intro h
    simp only [export_query, h, if_true]
    exact executedQueries_export_core ep envE q fmt fn?
  · intro h
    refine ⟨?_, ?_, ?_⟩ <;> simp [export_table_query, h, executedQueries, closeCount, Event.isClose]
  · intro h
    simp only [export_table_query, h, if_true]
    exact executedQueries_export_core ep envE q fmt fn?
  · intro h
    rw [h]
    exact ⟨rfl, rfl, rfl, rfl, rfl⟩

/-- C2 witness: the theorem applied at the spec's own scenario — the
    tree-dialect select tool rejects `DROP DATABASE root.a` without touching
    the database and with the session closed, and passes
    `  select * from root.a.b` through verbatim. -/
theorem C2_classification_boundary_witness :
    ((select_query ⟨some ⟨["Time"], []⟩, false⟩ "DROP DATABASE root.a").result
        = .error .unsupported
      ∧ executedQueries (select_query ⟨some ⟨["Time"], []⟩, false⟩ "DROP DATABASE root.a").events
          = []
      ∧ 1 ≤ closeCount (select_query ⟨some ⟨["Time"], []⟩, false⟩ "DROP DATABASE root.a").events)
  ∧ executedQueries (select_query ⟨some ⟨["Time"], []⟩, false⟩ "  select * from root.a.b").events
      = ["  select * from root.a.b"] := by
  constructor
  · exact (C2_classification_boundary ⟨some ⟨["Time"], []⟩, false⟩
      ⟨none, false, false, "", 0⟩ "" "csv" none "DROP DATABASE root.a" "").2.2.1 (by decide)
  · exact (C2_classification_boundary ⟨some ⟨["Time"], []⟩, false⟩
      ⟨none, false, false, "", 0⟩ "" "csv" none "  select * from root.a.b" "").2.2.2.1 (by decide)

/-- C3 counterexample: the tree-dialect export tool rejects
    `COUNT TIMESERIES root.ln.**` — a metadata-show statement the claim says
    it accepts — without executing it, and accepts `SHOW VERSION`, which is
    none of the eight metadata forms and which the claim says it rejects. -/
theorem C3_counterexample :
    (export_query "/export"
        ⟨some ⟨["count"], [⟨0, [.str "5"]⟩]⟩, false, false,
         "0123456789abcdef0123456789abcdef", 1700000000⟩
        "COUNT TIMESERIES root.ln.**" "csv" none).result = .error .unsupported
  ∧ executedQueries (export_query "/export"
        ⟨some ⟨["count"], [⟨0, [.str "5"]⟩]⟩, false, false,
         "0123456789abcdef0123456789abcdef", 1700000000⟩
        "COUNT TIMESERIES root.ln.**" "csv" none).events = []
  ∧ executedQueries (export_query "/export"
        ⟨some ⟨["version"], [⟨0, [.str "1.3.0"]⟩]⟩, false, false,
         "0123456789abcdef0123456789abcdef", 1700000000⟩
        "SHOW VERSION" "csv" none).events = ["SHOW VERSION"] := by
  refine ⟨by decide, by decide, by decide⟩

/-- C3 (amended): `export_query` permits exactly the queries whose trimmed
    upper-cased form starts with `"SELECT"` or with `"SHOW"` — so all four
    `SHOW`-family metadata forms are accepted (as is any other `SHOW`-prefixed
    statement), while the four `COUNT`-family metadata forms are rejected with
    the unsupported-statement error and never executed. -/
theorem C3_export_query_allowlist (ep : String) (env : ExportEnv) (q fmt : String)
    (fn? : Option String) :
    executedQueries (export_query ep env q fmt fn?).events
        = (if exportTreeAllowedB (pyUpper (pyStrip q)) then [q] else [])
  ∧ (exportTreeAllowedB (pyUpper (pyStrip q)) = false →
        (export_query ep env q fmt fn?).result = .error .unsupported)
  ∧ exportTreeAllowedB (pyUpper (pyStrip q))
      = (pyStartsWith (pyUpper (pyStrip q)) "SELECT"
          || pyStartsWith (pyUpper (pyStrip q)) "SHOW") := by
  refine ⟨?_, ?_, rfl⟩
  · cases hB : exportTreeAllowedB (pyUpper (pyStrip q)) with
    | false => simp [export_query, hB, executedQueries]
    | true =>
      simp only [export_query, hB, if_true]
      exact executedQueries_export_core ep env q fmt fn?
  · intro h
    simp [export_query, h]

/-- C3 witness: the rejection implication of the theorem discharged at the
    `COUNT DEVICES root.ln` input. -/
theorem C3_export_query_allowlist_witness :
    (export_query "/export" ⟨none, false, false, "", 0⟩ "COUNT DEVICES root.ln" "csv" none).result
      = .error .unsupported :=
  (C3_export_query_allowlist "/export" ⟨none, false, false, "", 0⟩ "COUNT DEVICES root.ln"
    "csv" none).2.1 (by decide)

/-- C9 counterexample: a query whose trimmed upper-cased form starts with
    `"DESC"` but not `"DESCRIBE"` is rejected by `read_query` with the
    unsupported-statement error and is never executed, contrary to the claim
    that it is accepted. -/
theorem C9_counterexample :
    (read_query ⟨some ⟨["ColumnName"], [⟨0, [.str "s1"]⟩]⟩, false⟩ "DESC t1").result
        = .error .unsupported
  ∧ executedQueries (read_query ⟨some ⟨["ColumnName"], [⟨0, [.str "s1"]⟩]⟩, false⟩
        "DESC t1").events = [] := by
  refine ⟨by decide, by decide⟩

/-- C9 (amended): in the table dialect only `export_table_query` tests the
    `"DESC"` form: every query whose trimmed upper-cased form starts with
    `"DESC"` is accepted and executed by `export_table_query`, while
    `read_query` accepts exactly the `"SELECT"`/`"DESCRIBE"`/`"SHOW"`-prefixed
    queries, so a statement such as `DESC t1` is rejected by `read_query` as
    unsupported. -/
theorem C9_desc_classification (env : QueryEnv) (envE : ExportEnv) (ep fmt : String)
    (fn? : Option String) (q : String) :
    executedQueries (read_query env q).events
        = (if readAllowedB (pyUpper (pyStrip q)) then [q] else [])
  ∧ readAllowedB (pyUpper (pyStrip q))
      = (pyStartsWith (pyUpper (pyStrip q)) "SELECT"
          || pyStartsWith (pyUpper (pyStrip q)) "DESCRIBE"
          || pyStartsWith (pyUpper (pyStrip q)) "SHOW")
  ∧ (pyStartsWith (pyUpper (pyStrip q)) "DESC" = true →
        executedQueries (export_table_query ep envE q fmt fn?).events = [q])
  ∧ (read_query env "DESC t1").result = .error .unsupported := by
  refine ⟨?_, rfl, ?_, ?_⟩
  · cases hB : readAllowedB (pyUpper (pyStrip q)) with
    | false => simp [read_query, hB, executedQueries]
    | true => exact executedQueries_read_query env q hB
  · intro h
    have hB : exportTableAllowedB (pyUpper (pyStrip q)) = true := by
      simp [exportTableAllowedB, h]
    simp only [export_table_query, hB, if_true]
    exact executedQueries_export_core ep envE q fmt fn?
  · simp [read_query, show readAllowedB (pyUpper (pyStrip "DESC t1")) = false by decide,
      executedQueries]

/-- C9 witness: the `"DESC"`-acceptance implication of the theorem discharged
    at the lowercase input `desc t2` (trimmed upper-cased form `DESC T2`). -/
theorem C9_desc_classification_witness :
    executedQueries (export_table_query "/export" ⟨none, false, false, "", 0⟩ "desc t2"
        "csv" none).events = ["desc t2"] :=
  (C9_desc_classification ⟨none, false⟩ ⟨none, false, false, "", 0⟩ "/export" "csv" none
    "desc t2").2.2.1 (by decide)

/-- C6: in a tree-dialect drain whose first column is named exactly `"Time"`,
    every row line is `str(record.get_timestamp())` — the raw integer epoch
    value, with no timezone conversion — followed by a comma and the remaining
    stringified field values; in particular draining columns
    `["Time","temperature"]` with the single row `[1000, 36.5]` yields the
    text `"Time,temperature\n1000,36.5"`. -/
theorem C6_time_column_rendering (env : QueryEnv) (rs : ResultSet)
    (hD : env.drainFail = false)
    (hT : rs.columns.head? = some "Time") :
    (prepare_res env rs).2
        = .ok (pyJoin "\n" (pyJoin "," rs.columns
            :: rs.records.map (fun record =>
                 Int.repr record.timestamp ++ ","
                   ++ pyJoin "," (record.fields.map Value.toStr))))
  ∧ (prepare_res ⟨some ⟨["Time", "temperature"], [⟨1000, [.str "36.5"]⟩]⟩, false⟩
        ⟨["Time", "temperature"], [⟨1000, [.str "36.5"]⟩]⟩).2
      = .ok "Time,temperature\n1000,36.5" := by
  constructor
  · have hne : rs.columns.isEmpty = false := by
      cases hc : rs.columns with
      | nil => rw [hc] at hT; cases hT
      | cons a l => simp
    have hf : renderRecord rs.columns
        = fun record => Int.repr record.timestamp ++ ","
            ++ pyJoin "," (record.fields.map Value.toStr) := by
      funext record
      simp [renderRecord, hT]
    simp only [prepare_res, hD, hne, Bool.false_and, if_false, Bool.false_eq_true, hf]
  · decide

/-- C6 witness: the theorem applied at the spec scenario's concrete result
    set, with both hypotheses discharged by `rfl`. -/
theorem C6_time_column_rendering_witness :
    (prepare_res ⟨some ⟨["Time", "temperature"], [⟨1000, [.str "36.5"]⟩]⟩, false⟩
        ⟨["Time", "temperature"], [⟨1000, [.str "36.5"]⟩]⟩).2
      = .ok "Time,temperature\n1000,36.5" :=
  (C6_time_column_rendering ⟨none, false⟩ ⟨["Time"], []⟩ rfl rfl).2

/-- C10: when an export tool is given an allowed query but a format string
    that lower-cases to neither `"csv"` nor `"excel"`, the query is still sent
    to the database and fully drained into the in-memory table, the session is
    closed (first `close` event, before the error is raised) and then closed
    again by the `except` block, the invocation fails with the format error,
    and no file is written. -/
theorem C10_bad_format_after_drain (ep : String) (env : ExportEnv) (q fmt : String)
    (fn? : Option String)
    (hE : env.execResult.isSome = true)
    (hT : env.todfFail = false)
    (hC : ¬ pyLower fmt = "csv")
    (hX : ¬ pyLower fmt = "excel") :
    (exportTreeAllowedB (pyUpper (pyStrip q)) = true →
        (export_query ep env q fmt fn?).result = .error .badFormat
      ∧ (export_query ep env q fmt fn?).events = [.acquire, .execute q, .close, .close]
      ∧ writeCount (export_query ep env q fmt fn?).events = 0)
  ∧ (exportTableAllowedB (pyUpper (pyStrip q)) = true →
        (export_table_query ep env q fmt fn?).result = .error .badFormat
      ∧ (export_table_query ep env q fmt fn?).events = [.acquire, .execute q, .close, .close]
      ∧ writeCount (export_table_query ep env q fmt fn?).events = 0) := by
  cases hEr : env.execResult with
  | none => rw [hEr] at hE; cases hE
  | some rs =>
    constructor
    · intro hB
      refine ⟨?_, ?_, ?_⟩ <;>
        simp [export_query, hB, export_core, hEr, hT, hC, hX, writeCount, Event.isWrite]
    · intro hB
      refine ⟨?_, ?_, ?_⟩ <;>
        simp [export_table_query, hB, export_core, hEr, hT, hC, hX, writeCount, Event.isWrite]

/-- C10 witness: the theorem applied at a concrete healthy environment with
    format `"json"` and the query `select * from root.sg`. -/
theorem C10_bad_format_after_drain_witness :
    (export_query "/export" ⟨some ⟨["s"], [⟨0, [.str "1"]⟩]⟩, false, false, "", 0⟩
        "select * from root.sg" "json" none).result = .error .badFormat
  ∧ (export_query "/export" ⟨some ⟨["s"], [⟨0, [.str "1"]⟩]⟩, false, false, "", 0⟩
        "select * from root.sg" "json" none).events
      = [.acquire, .execute "select * from root.sg", .close, .close]
  ∧ writeCount (export_query "/export" ⟨some ⟨["s"], [⟨0, [.str "1"]⟩]⟩, false, false, "", 0⟩
        "select * from root.sg" "json" none).events = 0 :=
  (C10_bad_format_after_drain "/export" ⟨some ⟨["s"], [⟨0, [.str "1"]⟩]⟩, false, false, "", 0⟩
    "select * from root.sg" "json" none (by decide) rfl (by decide) (by decide)).1 (by decide)

/-- A Python join of `c`-free parts with a `c`-free separator is `c`-free. -/
theorem count_pyJoin_zero (c : Char) (sep : String) (hsep : sep.data.count c = 0) :
    ∀ parts : List String, (∀ p ∈ parts, p.data.count c = 0) →
      (pyJoin sep parts).data.count c = 0 := by
  intro parts
  induction parts with
  | nil => intro _; simp [pyJoin]
  | cons x xs ih =>
    intro h
    cases xs with
    | nil => exact h x (by simp) |>.symm ▸ rfl
    | cons y ys =>
      show ((x ++ sep ++ pyJoin sep (y :: ys)).data.count c) = 0
      rw [String.data_append, String.data_append, List.count_append, List.count_append]
      rw [h x (by simp), hsep, ih (by intro p hp; exact h p (List.mem_cons_of_mem _ hp))]

/-- A tree-dialect row line contains no newline when no field value does. -/
theorem renderRecord_nl_zero (cols : List String) (r : RowRecord)
    (hv : ∀ v ∈ r.fields, (Value.toStr v).data.count '\n' = 0) :
    (renderRecord cols r).data.count '\n' = 0 := by
  have hj : (pyJoin "," (r.fields.map Value.toStr)).data.count '\n' = 0 := by
    apply count_pyJoin_zero _ _ (by decide)
    intro p hp
    rcases List.mem_map.mp hp with ⟨v, hv2, rfl⟩
    exact hv v hv2
  by_cases hT : cols.head? = some "Time"
  · have h1 : (Int.repr r.timestamp).data.count '\n' = 0 :=
      int_repr_count_zero _ _ (by decide) (by decide)
    have h2 : (",").data.count '\n' = 0 := by decide
    simp [renderRecord, hT, String.data_append, List.count_append, h1, h2, hj]
  · simp [renderRecord, hT, hj]

/-- Comma count of the comma-join of comma-free parts. -/
theorem count_commajoin (parts : List String) (hne : parts ≠ [])
    (h : ∀ p ∈ parts, p.data.count ',' = 0) :
    (pyJoin "," parts).data.count ',' = parts.length - 1 := by
  rw [count_pyJoin ',' "," _ hne]
  have hsum : (parts.map fun p => p.data.count ',').sum = 0 :=
    List.sum_eq_zero (by
      intro x hx
      rcases List.mem_map.mp hx with ⟨p, hp, rfl⟩
      exact h p hp)
  rw [hsum]
  simp

/-- A tree-dialect row line has exactly as many comma-separated fields as the
    result set has columns, provided the field values are comma-free and the
    record's arity matches the column list. -/
theorem renderRecord_field_count (cols : List String) (r : RowRecord)
    (hv : ∀ v ∈ r.fields, (Value.toStr v).data.count ',' = 0)
    (hcols : cols ≠ [])
    (hTimeAr : cols.head? = some "Time" → r.fields ≠ [] ∧ r.fields.length + 1 = cols.length)
    (hPlainAr : ¬ cols.head? = some "Time" → r.fields.length = cols.length) :
    (renderRecord cols r).data.count ',' + 1 = cols.length := by
  have hmem : ∀ p ∈ r.fields.map Value.toStr, p.data.count ',' = 0 := by
    intro p hp
    rcases List.mem_map.mp hp with ⟨v, hv2, rfl⟩
    exact hv v hv2
  by_cases hT : cols.head? = some "Time"
  · obtain ⟨hne, hlen⟩ := hTimeAr hT
    have hmapne : r.fields.map Value.toStr ≠ [] := by simpa using hne
    have hj : (pyJoin "," (r.fields.map Value.toStr)).data.count ','
        = r.fields.length - 1 := by
      rw [count_commajoin _ hmapne hmem]
      simp
    have h1 : (Int.repr r.timestamp).data.count ',' = 0 :=
      int_repr_count_zero _ _ (by decide) (by decide)
    have h2 : (",").data.count ',' = 1 := by decide
    have hlen1 : 1 ≤ r.fields.length := by
      cases hf : r.fields with
      | nil => exact absurd hf hne
      | cons a l => simp
    have hc : (renderRecord cols r).data.count ','
        = (Int.repr r.timestamp).data.count ',' + (",").data.count ','
          + (pyJoin "," (r.fields.map Value.toStr)).data.count ',' := by
      simp only [renderRecord, hT, if_true, String.data_append, List.count_append, h2]
    rw [hc, h1, h2, hj]
    omega
  · have hlen := hPlainAr hT
    have hne : r.fields ≠ [] := by
      intro hnil
      rw [hnil] at hlen
      exact hcols (List.length_eq_zero.mp hlen.symm)
    have hmapne : r.fields.map Value.toStr ≠ [] := by simpa using hne
    have hlen1 : 1 ≤ r.fields.length := by
      cases hf : r.fields with
      | nil => exact absurd hf hne
      | cons a l => simp
    have hc : (renderRecord cols r).data.count ','
        = r.fields.length - 1 := by
      rw [renderRecord, if_neg hT, count_commajoin _ hmapne hmem]
      simp
    rw [hc]
    omega

/-- Tree-dialect drain: the produced text, its newline count (so its line
    count is `1 + rowCount`), and the per-row field count. -/
theorem tree_drain_counts (env : QueryEnv) (rs : ResultSet)
    (hD : env.drainFail = false) (hcols : rs.columns ≠ [])
    (hcolnl : ∀ s ∈ rs.columns, s.data.count '\n' = 0)
    (hvals : ∀ r ∈ rs.records, ∀ v ∈ r.fields,
        (Value.toStr v).data.count '\n' = 0 ∧ (Value.toStr v).data.count ',' = 0)
    (hTimeAr : rs.columns.head? = some "Time" →
        ∀ r ∈ rs.records, r.fields ≠ [] ∧ r.fields.length + 1 = rs.columns.length)
    (hPlainAr : ¬ rs.columns.head? = some "Time" →
        ∀ r ∈ rs.records, r.fields.length = rs.columns.length) :
    (prepare_res env rs).2
        = .ok (pyJoin "\n" (pyJoin "," rs.columns :: rs.records.map (renderRecord rs.columns)))
  ∧ (pyJoin "\n" (pyJoin "," rs.columns
        :: rs.records.map (renderRecord rs.columns))).data.count '\n' = rs.records.length
  ∧ ∀ r ∈ rs.records, (renderRecord rs.columns r).data.count ',' + 1 = rs.columns.length := by
  refine ⟨?_, ?_, ?_⟩
  · have hne : rs.columns.isEmpty = false := by
      cases hc : rs.columns with
      | nil => exact absurd hc hcols
      | cons a l => simp
    simp [prepare_res, hD, hne]
  · rw [count_pyJoin '\n' "\n" _ (by simp)]
    have hhdr : (pyJoin "," rs.columns).data.count '\n' = 0 :=
      count_pyJoin_zero _ _ (by decide) _ hcolnl
    have hsum : ((pyJoin "," rs.columns :: rs.records.map (renderRecord rs.columns)).map
        fun p => p.data.count '\n').sum = 0 :=
      List.sum_eq_zero (by
        intro x hx
        rcases List.mem_map.mp hx with ⟨p, hp, rfl⟩
        rcases List.mem_cons.mp hp with h | h
        · rw [h]; exact hhdr
        · rcases List.mem_map.mp h with ⟨r, hr, rfl⟩
          exact renderRecord_nl_zero _ _ (fun v hv => (hvals r hr v hv).1))
    rw [hsum]
    simp
  · intro r hr
    exact renderRecord_field_count _ _ (fun v hv => (hvals r hr v hv).2) hcols
      (fun hT => hTimeAr hT r hr) (fun hT => hPlainAr hT r hr)

/-- Table-dialect drain: text, newline count and per-row field count. -/
theorem table_drain_counts (env : QueryEnv) (rs : ResultSet)
    (hD : env.drainFail = false) (hcols : rs.columns ≠ [])
    (hcolnl : ∀ s ∈ rs.columns, s.data.count '\n' = 0)
    (hvals : ∀ r ∈ rs.records, ∀ v ∈ r.fields,
        (Value.toStr v).data.count '\n' = 0 ∧ (Value.toStr v).data.count ',' = 0)
    (hAr : ∀ r ∈ rs.records, r.fields.length = rs.columns.length) :
    (prepare_res_table env rs).2
        = .ok (pyJoin "\n" (pyJoin "," rs.columns :: rs.records.map renderRecordTable))
  ∧ (pyJoin "\n" (pyJoin "," rs.columns
        :: rs.records.map renderRecordTable)).data.count '\n' = rs.records.length
  ∧ ∀ r ∈ rs.records, (renderRecordTable r).data.count ',' + 1 = rs.columns.length := by
  refine ⟨?_, ?_, ?_⟩
  · simp [prepare_res_table, hD]
  · rw [count_pyJoin '\n' "\n" _ (by simp)]
    have hhdr : (pyJoin "," rs.columns).data.count '\n' = 0 :=
      count_pyJoin_zero _ _ (by decide) _ hcolnl
    have hsum : ((pyJoin "," rs.columns :: rs.records.map renderRecordTable).map
        fun p => p.data.count '\n').sum = 0 :=
      List.sum_eq_zero (by
        intro x hx
        rcases List.mem_map.mp hx with ⟨p, hp, rfl⟩
        rcases List.mem_cons.mp hp with h | h
        · rw [h]; exact hhdr
        · rcases List.mem_map.mp h with ⟨r, hr, rfl⟩
          refine count_pyJoin_zero _ _ (by decide) _ ?_
          intro p hp
          rcases List.mem_map.mp hp with ⟨v, hv2, rfl⟩
          exact (hvals r hr v hv2).1)
    rw [hsum]
    simp
  · intro r hr
    have hlen := hAr r hr
    have hne : r.fields ≠ [] := by
      intro hnil
      rw [hnil] at hlen
      exact hcols (List.length_eq_zero.mp hlen.symm)
    have hmapne : r.fields.map Value.toStr ≠ [] := by simpa using hne
    have hlen1 : 1 ≤ r.fields.length := by
      cases hf : r.fields with
      | nil => exact absurd hf hne
      | cons a l => simp
    have hc : (renderRecordTable r).data.count ',' = r.fields.length - 1 := by
      rw [renderRecordTable, count_commajoin _ hmapne (by
        intro p hp
        rcases List.mem_map.mp hp with ⟨v, hv2, rfl⟩
        exact (hvals r hr v hv2).2)]
      simp
    rw [hc]
    omega

/-- C5 counterexample: a successful tree-dialect drain of one row whose
    single field value is the string `a,b` yields the text `"s1\na,b"` — the
    row line splits into 2 comma-separated fields against 1 column — and a
    field value `a\nb` yields the text `"s1\na\nb"`, which has 3
    newline-separated lines instead of the claimed `1 + rowCount = 2`, because
    the renderer applies no escaping. -/
theorem C5_counterexample :
    (prepare_res ⟨some ⟨["s1"], [⟨0, [.str "a,b"]⟩]⟩, false⟩
        ⟨["s1"], [⟨0, [.str "a,b"]⟩]⟩).2 = .ok "s1\na,b"
  ∧ (renderRecord ["s1"] ⟨0, [.str "a,b"]⟩).data.count ',' + 1 = 2
  ∧ (["s1"] : List String).length = 1
  ∧ (prepare_res ⟨some ⟨["s1"], [⟨0, [.str "a\nb"]⟩]⟩, false⟩
        ⟨["s1"], [⟨0, [.str "a\nb"]⟩]⟩).2 = .ok "s1\na\nb"
  ∧ ("s1\na\nb" : String).data.count '\n' + 1 = 3 := by
  refine ⟨by decide, by decide, rfl, by decide, by decide⟩

/-- C5 (amended): for every successfully drained result set whose column
    names and rendered field values contain no comma and no newline (the
    renderer applies no escaping) and whose records have the arity the
    database guarantees (one field per non-`Time` column), the rendered text
    consists of exactly `1 + rowCount` newline-separated lines — a comma-joined
    header and one line per record in cursor order — and each row line has
    exactly as many comma-separated fields as there are columns; this holds
    for both the tree-dialect and the table-dialect `prepare_res`. -/
theorem C5_drain_line_field_counts (env : QueryEnv) (rs rsT : ResultSet)
    (hD : env.drainFail = false)
    (hcols : rs.columns ≠ [])
    (hcolnl : ∀ s ∈ rs.columns, s.data.count '\n' = 0)
    (hvals : ∀ r ∈ rs.records, ∀ v ∈ r.fields,
        (Value.toStr v).data.count '\n' = 0 ∧ (Value.toStr v).data.count ',' = 0)
    (hTimeAr : rs.columns.head? = some "Time" →
        ∀ r ∈ rs.records, r.fields ≠ [] ∧ r.fields.length + 1 = rs.columns.length)
    (hPlainAr : ¬ rs.columns.head? = some "Time" →
        ∀ r ∈ rs.records, r.fields.length = rs.columns.length)
    (hcolsT : rsT.columns ≠ [])
    (hcolnlT : ∀ s ∈ rsT.columns, s.data.count '\n' = 0)
    (hvalsT : ∀ r ∈ rsT.records, ∀ v ∈ r.fields,
        (Value.toStr v).data.count '\n' = 0 ∧ (Value.toStr v).data.count ',' = 0)
    (hArT : ∀ r ∈ rsT.records, r.fields.length = rsT.columns.length) :
    ((prepare_res env rs).2
        = .ok (pyJoin "\n" (pyJoin "," rs.columns :: rs.records.map (renderRecord rs.columns)))
      ∧ (pyJoin "\n" (pyJoin "," rs.columns
            :: rs.records.map (renderRecord rs.columns))).data.count '\n' = rs.records.length
      ∧ ∀ r ∈ rs.records, (renderRecord rs.columns r).data.count ',' + 1 = rs.columns.length)
  ∧ ((prepare_res_table env rsT).2
        = .ok (pyJoin "\n" (pyJoin "," rsT.columns :: rsT.records.map renderRecordTable))
      ∧ (pyJoin "\n" (pyJoin "," rsT.columns
            :: rsT.records.map renderRecordTable)).data.count '\n' = rsT.records.length
      ∧ ∀ r ∈ rsT.records, (renderRecordTable r).data.count ',' + 1 = rsT.columns.length) :=
  ⟨tree_drain_counts env rs hD hcols hcolnl hvals hTimeAr hPlainAr,
   table_drain_counts env rsT hD hcolsT hcolnlT hvalsT hArT⟩

/-- C5 witness: the theorem applied at a one-row `Time` result set (columns
    `["Time","temperature"]`) and a one-row table result set (columns
    `["a","b"]`), all hypotheses discharged by `decide`. -/
theorem C5_drain_line_field_counts_witness :
    (pyJoin "\n" (pyJoin "," ["Time", "temperature"]
        :: [(⟨1000, [Value.str "36.5"]⟩ : RowRecord)].map
             (renderRecord ["Time", "temperature"]))).data.count '\n' = 1
  ∧ (renderRecord ["Time", "temperature"] ⟨1000, [Value.str "36.5"]⟩).data.count ',' + 1 = 2
  ∧ (renderRecordTable ⟨0, [Value.str "1", Value.str "2"]⟩).data.count ',' + 1 = 2 := by
  obtain ⟨⟨_, h2, h3⟩, ⟨_, _, h6⟩⟩ :=
    C5_drain_line_field_counts ⟨none, false⟩
      ⟨["Time", "temperature"], [⟨1000, [Value.str "36.5"]⟩]⟩
      ⟨["a", "b"], [⟨0, [Value.str "1", Value.str "2"]⟩]⟩
      rfl (by decide) (by decide) (by decide) (by decide) (by decide)
      (by decide) (by decide) (by decide) (by decide)
  exact ⟨h2, h3 _ (by simp), h6 _ (by simp)⟩

/-- Shape of a fully successful csv export: the executed events and the
    returned payload. -/
theorem export_core_csv (ep : String) (env : ExportEnv) (q fmt : String)
    (fn? : Option String) (rs : ResultSet)
    (hE : env.execResult = some rs) (hT : env.todfFail = false)
    (hW : env.writeFail = false) (hC : pyLower fmt = "csv") :
    export_core ep env q fmt fn?
      = ⟨[.acquire, .execute q, .close,
          .write (resolvedCsvPath ep (exportBaseName env fn?)) rs.todf],
         .ok ⟨resolvedCsvPath ep (exportBaseName env fn?), min 10 rs.todf.rows.length,
              previewData rs.todf⟩⟩ := by
  simp [export_core, hE, hT, hW, hC]

/-- The preview block has `min(10, rowCount) + 1` entries, and — when the
    column names and the previewed values are newline-free — also exactly that
    many newline-separated lines once joined. -/
theorem previewData_counts (df : DataFrame)
    (hcolnl : ∀ s ∈ df.columns, s.data.count '\n' = 0)
    (hvalnl : ∀ row ∈ df.rows, ∀ v ∈ row, (Value.toStr v).data.count '\n' = 0) :
    (previewData df).length = min 10 df.rows.length + 1
  ∧ (pyJoin "\n" (previewData df)).data.count '\n' + 1 = min 10 df.rows.length + 1 := by
  constructor
  · simp [previewData]
  · rw [count_pyJoin '\n' "\n" _ (by simp [previewData])]
    have hsum : ((previewData df).map fun p => p.data.count '\n').sum = 0 :=
      List.sum_eq_zero (by
        intro x hx
        rcases List.mem_map.mp hx with ⟨p, hp, rfl⟩
        rcases List.mem_cons.mp hp with h | h
        · rw [h]
          exact count_pyJoin_zero _ _ (by decide) _ hcolnl
        · rcases List.mem_map.mp h with ⟨row, hrow, rfl⟩
          refine count_pyJoin_zero _ _ (by decide) _ ?_
          intro p hp
          rcases List.mem_map.mp hp with ⟨v, hv, rfl⟩
          exact hvalnl row (List.mem_of_mem_take hrow) v hv)
    rw [hsum]
    have hlen : (previewData df).length = min 10 df.rows.length + 1 := by
      simp [previewData]
    rw [hlen]
    simp

/-- `todf` preserves the row count. -/
theorem todf_rows_length (rs : ResultSet) : rs.todf.rows.length = rs.records.length := by
  rw [ResultSet.todf]
  split <;> simp

/-- C7 counterexample: a successful one-row csv export whose single value is
    the string `a\nb` returns a preview portion of 3 newline-separated lines,
    not the claimed `min(10, rowCount) + 1 = 2`, because the preview renderer
    applies no escaping. -/
theorem C7_counterexample :
    (export_query "/export"
        ⟨some ⟨["s1"], [⟨0, [.str "a\nb"]⟩]⟩, false, false,
         "0123456789abcdef0123456789abcdef", 1700000000⟩
        "select s1 from root.sg" "csv" none).result
      = .ok ⟨"/export/dump_0123_1700000000.csv", 1, ["s1", "a\nb"]⟩
  ∧ (pyJoin "\n" ["s1", "a\nb"]).data.count '\n' + 1 = 3
  ∧ min 10 1 + 1 = 2 := by
  refine ⟨by decide, by decide, rfl⟩

/-- C7 (amended): for every fully successful csv export whose column names
    and previewed values are newline-free, the returned preview consists of
    exactly `min(10, rowCount) + 1` entries — the header plus the table's
    first `min(10, rowCount)` rows — and exactly that many newline-separated
    lines; the written file (modelled per the spec as header plus all rows,
    no index column) contains exactly `rowCount + 1` lines. Both export tools
    behave identically. -/
theorem C7_export_preview_counts (ep : String) (env : ExportEnv) (q fmt : String)
    (fn? : Option String) (rs : ResultSet)
    (hE : env.execResult = some rs) (hT : env.todfFail = false)
    (hW : env.writeFail = false) (hC : pyLower fmt = "csv")
    (hcolnl : ∀ s ∈ rs.todf.columns, s.data.count '\n' = 0)
    (hvalnl : ∀ row ∈ rs.todf.rows, ∀ v ∈ row, (Value.toStr v).data.count '\n' = 0) :
    (exportTreeAllowedB (pyUpper (pyStrip q)) = true →
        (export_query ep env q fmt fn?).result
          = .ok ⟨resolvedCsvPath ep (exportBaseName env fn?), min 10 rs.todf.rows.length,
                 previewData rs.todf⟩)
  ∧ (exportTableAllowedB (pyUpper (pyStrip q)) = true →
        (export_table_query ep env q fmt fn?).result
          = .ok ⟨resolvedCsvPath ep (exportBaseName env fn?), min 10 rs.todf.rows.length,
                 previewData rs.todf⟩)
  ∧ (previewData rs.todf).length = min 10 rs.todf.rows.length + 1
  ∧ (pyJoin "\n" (previewData rs.todf)).data.count '\n' + 1 = min 10 rs.todf.rows.length + 1
  ∧ (writtenLines rs.todf).length = rs.todf.rows.length + 1
  ∧ rs.todf.rows.length = rs.records.length := by
  obtain ⟨hp1, hp2⟩ := previewData_counts rs.todf hcolnl hvalnl
  refine ⟨?_, ?_, hp1, hp2, by simp [writtenLines], todf_rows_length rs⟩
  · intro hB
    simp only [export_query, hB, if_true]
    rw [export_core_csv ep env q fmt fn? rs hE hT hW hC]
  · intro hB
    simp only [export_table_query, hB, if_true]
    rw [export_core_csv ep env q fmt fn? rs hE hT hW hC]

/-- C7 witness: the theorem applied at a concrete one-row export. -/
theorem C7_export_preview_counts_witness :
    (export_query "/export" ⟨some ⟨["s1"], [⟨0, [Value.str "1"]⟩]⟩, false, false, "ab", 7⟩
        "select s1 from root.sg" "csv" none).result
      = .ok ⟨resolvedCsvPath "/export"
              (exportBaseName ⟨some ⟨["s1"], [⟨0, [Value.str "1"]⟩]⟩, false, false, "ab", 7⟩ none),
             min 10 (⟨["s1"], [⟨0, [Value.str "1"]⟩]⟩ : ResultSet).todf.rows.length,
             previewData (⟨["s1"], [⟨0, [Value.str "1"]⟩]⟩ : ResultSet).todf⟩
  ∧ (previewData (⟨["s1"], [⟨0, [Value.str "1"]⟩]⟩ : ResultSet).todf).length = 2 := by
  obtain ⟨h1, _, h3, _, _, _⟩ :=
    C7_export_preview_counts "/export"
      ⟨some ⟨["s1"], [⟨0, [Value.str "1"]⟩]⟩, false, false, "ab", 7⟩
      "select s1 from root.sg" "csv" none ⟨["s1"], [⟨0, [Value.str "1"]⟩]⟩
      rfl rfl rfl (by decide) (by decide) (by decide)
  exact ⟨h1 (by decide), h3.trans (by rfl)⟩

/-! ## The generated export filename (claim C4) -/

theorem toDigitsCore_pred (P : Char → Prop) (hP : ∀ m < 10, P (Nat.digitChar m)) :
    ∀ (fuel n : Nat) (acc : List Char), (∀ c ∈ acc, P c) →
      ∀ c ∈ Nat.toDigitsCore 10 fuel n acc, P c := by
  intro fuel
  induction fuel with
  | zero => intro n acc hacc; simpa [Nat.toDigitsCore] using hacc
  | succ f ih =>
    intro n acc hacc
    unfold Nat.toDigitsCore
    dsimp only
    have hd : P (Nat.digitChar (n % 10)) := hP _ (Nat.mod_lt _ (by decide))
    split
    · intro c hc
      rcases List.mem_cons.mp hc with h | h
      · rw [h]; exact hd
      · exact hacc _ h
    · exact ih _ _ (by
        intro c hc
        rcases List.mem_cons.mp hc with h | h
        · rw [h]; exact hd
        · exact hacc _ h)

/-- Every character of the decimal form of a natural number is one of the ten
    decimal digit characters. -/
theorem nat_repr_mem (n : Nat) :
    ∀ c ∈ (Nat.repr n).data, c ∈ ['0', '1', '2', '3', '4', '5', '6', '7', '8', '9'] := by
  intro c hc
  have h : (Nat.repr n).data = Nat.toDigits 10 n := rfl
  rw [h] at hc
  exact toDigitsCore_pred _ (by decide) _ _ _ (by simp) c hc

/-- A decimal digit character is fixed by ASCII lowercasing and is not `'v'`. -/
theorem digit_pyLowerChar (c : Char)
    (h : c ∈ ['0', '1', '2', '3', '4', '5', '6', '7', '8', '9']) :
    pyLowerChar c = c ∧ c ≠ 'v' := by
  fin_cases h <;> exact ⟨by decide, by decide⟩

/-- The generated base name `dump_{hex4}_{digits}` never case-insensitively
    ends with `.csv` (its last character is a decimal digit), so the csv
    branch appends the extension without stripping anything. -/
theorem generated_name_not_csv (env : ExportEnv) :
    pyEndsWith (pyLower (exportBaseName env none)) ".csv" = false := by
  have hdne : (Nat.repr env.now).data ≠ [] := nat_repr_ne_nil env.now
  obtain ⟨c, cs, hcc⟩ : ∃ c cs, (Nat.repr env.now).data.reverse = c :: cs := by
    cases hr : (Nat.repr env.now).data.reverse with
    | nil => exact absurd (List.reverse_eq_nil_iff.mp hr) hdne
    | cons c cs => exact ⟨c, cs, rfl⟩
  have hcmem : c ∈ (Nat.repr env.now).data := by
    rw [← List.mem_reverse, hcc]
    exact List.mem_cons_self _ _
  obtain ⟨hlc, hcv⟩ := digit_pyLowerChar c (nat_repr_mem env.now c hcmem)
  by_contra hcon
  rw [Bool.not_eq_false, pyEndsWith, List.isSuffixOf_iff_suffix] at hcon
  obtain ⟨t, ht⟩ := hcon
  have hdata : (pyLower (exportBaseName env none)).data.reverse
      = pyLowerChar c
          :: (cs.map pyLowerChar
              ++ (("dump_" ++ pyTake env.uuidHex 4 ++ "_").data.map pyLowerChar).reverse) := by
    calc (pyLower (exportBaseName env none)).data.reverse
        = ((("dump_" ++ pyTake env.uuidHex 4 ++ "_").data
            ++ (Nat.repr env.now).data).map pyLowerChar).reverse := by
          rw [show (pyLower (exportBaseName env none)).data
              = (("dump_" ++ pyTake env.uuidHex 4 ++ "_" ++ Nat.repr env.now).data.map
                  pyLowerChar) from rfl, String.data_append]
      _ = ((("dump_" ++ pyTake env.uuidHex 4 ++ "_").data.map pyLowerChar)
            ++ ((Nat.repr env.now).data.map pyLowerChar)).reverse := by
          rw [List.map_append]
      _ = ((Nat.repr env.now).data.map pyLowerChar).reverse
            ++ (("dump_" ++ pyTake env.uuidHex 4 ++ "_").data.map pyLowerChar).reverse := by
          rw [List.reverse_append]
      _ = ((Nat.repr env.now).data.reverse.map pyLowerChar)
            ++ (("dump_" ++ pyTake env.uuidHex 4 ++ "_").data.map pyLowerChar).reverse := by
          rw [List.map_reverse]
      _ = _ := by rw [hcc]; simp
  have hrev := congrArg List.reverse ht
  rw [List.reverse_append, hdata,
      show (".csv".data.reverse : List Char) = ['v', 's', 'c', '.'] by decide] at hrev
  have hv : 'v' = pyLowerChar c := by
    have : ('v' :: (['s', 'c', '.'] ++ t.reverse) : List Char)
        = pyLowerChar c
            :: (cs.map pyLowerChar
                ++ (("dump_" ++ pyTake env.uuidHex 4 ++ "_").data.map pyLowerChar).reverse) := hrev
    injection this
  rw [hlc] at hv
  exact hcv hv.symm

/-- C4 counterexample: with the generator drawing uuid hex
    `0123456789abcdef0123456789abcdef` at unix time 1700000000, an export with
    no filename writes `/export/dump_0123_1700000000.csv` — the random part
    has 4 hex characters, not 8, so the final component does not match
    `dump_[0-9a-f]{8}_\d+\.csv`. -/
theorem C4_counterexample :
    (export_query "/export"
        ⟨some ⟨["s"], [⟨0, [.str "1"]⟩]⟩, false, false,
         "0123456789abcdef0123456789abcdef", 1700000000⟩
        "select s from root.sg" "csv" none).events
      = [.acquire, .execute "select s from root.sg", .close,
         .write "/export/dump_0123_1700000000.csv"
           (ResultSet.todf ⟨["s"], [⟨0, [.str "1"]⟩]⟩)]
  ∧ ¬ DumpName 8 ".csv" "dump_0123_1700000000.csv" := by
  constructor
  · decide
  · rintro ⟨h, d, heq, hlen, hhex, _, _⟩
    have hdat : ("dump_0123_1700000000.csv" : String).data
        = "dump_".data ++ (h.data ++ ("_".data ++ (d.data ++ ".csv".data))) := by
      have := congrArg String.data heq
      simpa [String.data_append, List.append_assoc] using this
    have hdrop : ("dump_0123_1700000000.csv" : String).data.drop 5
        = h.data ++ ("_".data ++ (d.data ++ ".csv".data)) := by
      rw [hdat]
      exact List.drop_left' (by decide)
    have htake : (("dump_0123_1700000000.csv" : String).data.drop 5).take 8 = h.data := by
      rw [hdrop]
      exact List.take_left' hlen
    have hval : h.data = ['0', '1', '2', '3', '_', '1', '7', '0'] := by
      rw [← htake]
      decide
    have := hhex '_' (by rw [hval]; decide)
    exact absurd this (by decide)

/-- C4 (amended): for every fully successful csv export with no filename
    supplied, where the uuid source is a 32-character lowercase-hex string (as
    `uuid.uuid4().hex` always is), the written filepath is the export
    directory joined with a final component of the form
    `dump_{4 lowercase hex characters}_{unix seconds}.csv`, i.e. matching
    `dump_[0-9a-f]{4}_\d+\.csv` — 4 random hex characters, not 8. -/
theorem C4_generated_filename (ep : String) (env : ExportEnv) (q fmt : String) (rs : ResultSet)
    (hB : exportTreeAllowedB (pyUpper (pyStrip q)) = true)
    (hE : env.execResult = some rs) (hT : env.todfFail = false)
    (hW : env.writeFail = false) (hC : pyLower fmt = "csv")
    (h32 : env.uuidHex.data.length = 32)
    (hhex : ∀ c ∈ env.uuidHex.data, isHexLower c = true) :
    (export_query ep env q fmt none).events
      = [.acquire, .execute q, .close,
         .write (ep ++ "/" ++ ("dump_" ++ pyTake env.uuidHex 4 ++ "_" ++ Nat.repr env.now
                  ++ ".csv")) rs.todf]
  ∧ DumpName 4 ".csv"
      ("dump_" ++ pyTake env.uuidHex 4 ++ "_" ++ Nat.repr env.now ++ ".csv") := by
  constructor
  · have hname : resolvedCsvName (exportBaseName env none)
        = "dump_" ++ pyTake env.uuidHex 4 ++ "_" ++ Nat.repr env.now ++ ".csv" := by
      rw [resolvedCsvName, generated_name_not_csv env, if_neg (by simp)]
      rfl
    simp only [export_query, hB, if_true]
    rw [export_core_csv ep env q fmt none rs hE hT hW hC, resolvedCsvPath, hname]
  · refine ⟨pyTake env.uuidHex 4, Nat.repr env.now, rfl, ?_, ?_,
      nat_repr_ne_nil env.now, nat_repr_digits env.now⟩
    · show (env.uuidHex.data.take 4).length = 4
      rw [List.length_take, h32]
      decide
    · intro c hc
      exact hhex c (List.take_subset 4 env.uuidHex.data hc)

/-- C4 witness: the amended theorem applied at a concrete environment. -/
theorem C4_generated_filename_witness :
    (export_query "/export"
        ⟨some ⟨["s"], [⟨0, [Value.str "1"]⟩]⟩, false, false,
         "0123456789abcdef0123456789abcdef", 1700000000⟩
        "select s from root.sg" "csv" none).events
      = [.acquire, .execute "select s from root.sg", .close,
         .write ("/export" ++ "/" ++ ("dump_"
             ++ pyTake "0123456789abcdef0123456789abcdef" 4 ++ "_" ++ Nat.repr 1700000000
             ++ ".csv")) (ResultSet.todf ⟨["s"], [⟨0, [Value.str "1"]⟩]⟩)]
  ∧ DumpName 4 ".csv"
      ("dump_" ++ pyTake "0123456789abcdef0123456789abcdef" 4 ++ "_"
        ++ Nat.repr 1700000000 ++ ".csv") :=
  C4_generated_filename "/export"
    ⟨some ⟨["s"], [⟨0, [Value.str "1"]⟩]⟩, false, false,
     "0123456789abcdef0123456789abcdef", 1700000000⟩
    "select s from root.sg" "csv" ⟨["s"], [⟨0, [Value.str "1"]⟩]⟩
    (by decide) rfl rfl rfl (by decide) (by decide) (by decide)

/-! ## Extension handling in export filenames (claim C8) -/

theorem string_data_eq {s t : String} (h : s.data = t.data) : s = t := by
  cases s
  cases t
  exact congrArg String.mk h

/-- Stripping one trailing `.csv` and appending the canonical extension is the
    identity on names that already end with `.csv`. -/
theorem resolvedCsvName_of_endsWith (f : String) (hf : pyEndsWith f ".csv" = true) :
    resolvedCsvName f = f := by
  rw [pyEndsWith, List.isSuffixOf_iff_suffix] at hf
  obtain ⟨t, ht⟩ := hf
  have hlow : pyEndsWith (pyLower f) ".csv" = true := by
    rw [pyEndsWith, List.isSuffixOf_iff_suffix]
    refine ⟨t.map pyLowerChar, ?_⟩
    show t.map pyLowerChar ++ (".csv".data : List Char) = f.data.map pyLowerChar
    rw [← ht, List.map_append]
    congr 1
  have hlen : f.data.length = t.length + 4 := by
    rw [← ht]
    simp
  have htake : f.data.take (f.data.length - 4) = t := by
    rw [hlen, Nat.add_sub_cancel, ← ht]
    exact List.take_left _ _
  rw [resolvedCsvName, if_pos hlow]
  apply string_data_eq
  rw [String.data_append]
  show f.data.take (f.data.length - 4) ++ (".csv".data : List Char) = f.data
  rw [htake, ht]

theorem export_core_datacsv (ep : String) (env : ExportEnv) (q : String) :
    export_core ep env q "csv" (some "data.csv") = export_core ep env q "csv" (some "data") := by
  have hpath : resolvedCsvPath ep "data.csv" = resolvedCsvPath ep "data" := by
    rw [resolvedCsvPath, resolvedCsvPath,
        show resolvedCsvName "data.csv" = resolvedCsvName "data" from by decide]
  cases hE : env.execResult with
  | none => simp [export_core, hE]
  | some rs =>
    cases hT : env.todfFail with
    | true => simp [export_core, hE, hT]
    | false =>
      cases hW : env.writeFail with
      | true =>
        simp [export_core, hE, hT, hW, show pyLower "csv" = "csv" from by decide, exportBaseName]
      | false =>
        simp [export_core, hE, hT, hW, show pyLower "csv" = "csv" from by decide,
          exportBaseName, hpath]

/-- C8 counterexample: the supplied filename `a.csv.csv` already ends with the
    target extension, yet the resolved final component is `a.csv.csv` — it
    contains `.csv` twice, because only one trailing copy is stripped before
    re-appending — so "the resolved filepath contains the extension exactly
    once" is false. -/
theorem C8_counterexample :
    resolvedCsvName "a.csv.csv" = "a.csv.csv"
  ∧ substrCount ".csv" (resolvedCsvName "a.csv.csv") = 2
  ∧ (export_query "/export" ⟨some ⟨["s"], [⟨0, [.str "1"]⟩]⟩, false, false, "", 0⟩
        "select s from root.sg" "csv" (some "a.csv.csv")).events
      = [.acquire, .execute "select s from root.sg", .close,
         .write "/export/a.csv.csv" (ResultSet.todf ⟨["s"], [⟨0, [.str "1"]⟩]⟩)] := by
  refine ⟨by decide, by decide, by decide⟩

/-- C8 (amended): extension handling strips exactly one trailing (case-
    insensitively matched) copy of the target extension before appending the
    canonical one. Hence resolution is the identity on filenames already
    ending in `.csv` — a filename carrying the extension exactly once
    resolves to a final component carrying it exactly once, but repeated
    trailing extensions in the supplied name are preserved — and
    `export(table, "csv", "data.csv")` resolves to the same filepath as
    `export(table, "csv", "data")`, with both export tools behaving
    identically throughout. -/
theorem C8_extension_handling (ep : String) (env : ExportEnv) (q f : String) :
    (pyEndsWith f ".csv" = true → resolvedCsvName f = f)
  ∧ (pyEndsWith f ".csv" = true → substrCount ".csv" f = 1 →
        substrCount ".csv" (resolvedCsvName f) = 1)
  ∧ resolvedCsvPath ep "data.csv" = resolvedCsvPath ep "data"
  ∧ export_query ep env q "csv" (some "data.csv") = export_query ep env q "csv" (some "data")
  ∧ export_table_query ep env q "csv" (some "data.csv")
      = export_table_query ep env q "csv" (some "data") := by
  refine ⟨resolvedCsvName_of_endsWith f, ?_, ?_, ?_, ?_⟩
  · intro hf h1
    rw [resolvedCsvName_of_endsWith f hf]
    exact h1
  · rw [resolvedCsvPath, resolvedCsvPath,
        show resolvedCsvName "data.csv" = resolvedCsvName "data" from by decide]
  · cases hB : exportTreeAllowedB (pyUpper (pyStrip q)) <;>
      simp [export_query, hB, export_core_datacsv]
  · cases hB : exportTableAllowedB (pyUpper (pyStrip q)) <;>
      simp [export_table_query, hB, export_core_datacsv]

/-- C8 witness: the theorem applied at the filename `report.csv`, whose
    hypotheses hold by computation. -/
theorem C8_extension_handling_witness :
    resolvedCsvName "report.csv" = "report.csv"
  ∧ substrCount ".csv" (resolvedCsvName "report.csv") = 1 := by
  constructor
  · exact (C8_extension_handling "/export" ⟨none, false, false, "", 0⟩ "select s"
      "report.csv").1 (by decide)
  · exact (C8_extension_handling "/export" ⟨none, false, false, "", 0⟩ "select s"
      "report.csv").2.1 (by decide) (by decide)
